import Mathlib

/-!
Shallow embedding of the texture corpus library (Python 3): the BOWCorpus
base class (src/corpora/bowcorpus.py), the ChunkCorpus chunking engine
(src/corpora/texts/chunkcorpus.py) and the default tokenizer
(src/nlp/tokenize.py).  Dynamically typed policy fields are modelled by the
PyVal type, Python exceptions by PyErr, Python float values by exact
fractions (the only observable use of a float boundary in the claims is the
TypeError it provokes when used as a slice index, which does not depend on
the float's value).
-/

namespace Texture

/-- Exact model of a Python float value as an unreduced fraction num/den.
Every float the embedded code constructs has a positive denominator.  The
binary rounding of real Python floats is not modelled: in every claim the
only observable property of a float is whether it is zero and that it is
not an int (provoking TypeError as a slice index), and both are exact. -/
structure PyFloat where
  num : Int
  den : Int
deriving DecidableEq

/-- Truncation toward zero of a float, Python int(). -/
def pyTrunc (q : PyFloat) : Int :=
  q.num.tdiv q.den

/-- Product of a float and an int (Python float * int, an exact float). -/
def PyFloat.intMul (q : PyFloat) (k : Int) : PyFloat :=
  { num := q.num * k, den := q.den }

/-- Python runtime values held by the dynamically typed configuration
fields (chunksize, nchunks, overlap, roundedsize, minsize, upscale,
tokenize).  Python bools are ints; floats are exact fractions. -/
inductive PyVal
  | none
  | bool (b : Bool)
  | int (n : Int)
  | float (q : PyFloat)
deriving DecidableEq

/-- Python truthiness of a PyVal (None, False, 0 and 0.0 are falsy); a
float is zero exactly when its numerator is zero. -/
def PyVal.truthy : PyVal → Bool
  | PyVal.none => false
  | PyVal.bool b => b
  | PyVal.int n => decide (n ≠ 0)
  | PyVal.float q => decide (q.num ≠ 0)

/-- Numeric view of a PyVal as an unreduced fraction; None has none. -/
def PyVal.toNumDen : PyVal → Option (Int × Int)
  | PyVal.none => Option.none
  | PyVal.bool b => some ((if b then 1 else 0), 1)
  | PyVal.int n => some (n, 1)
  | PyVal.float q => some (q.num, q.den)

/-- Python equality on PyVal: numbers compare by value (True == 1,
1 == 1.0, by cross-multiplication on the positive-denominator fractions),
None is equal only to None. -/
def PyVal.pyEq (a b : PyVal) : Bool :=
  match a.toNumDen, b.toNumDen with
  | some x, some y => decide (x.1 * y.2 = y.1 * x.2)
  | Option.none, Option.none => true
  | _, _ => false

/-- Python exceptions that the embedded code can raise.  The source
repository defines no ConfigurationError class anywhere; the constructor is
present only so that spec claims mentioning it can be stated and refuted. -/
inductive PyErr
  | nameError (n : String)
  | typeError (m : String)
  | valueError (m : String)
  | indexError
  | fileNotFoundError (p : String)
  | systemExit
  | configurationError
deriving DecidableEq

/-- Item content: a raw text string or a pre-tokenized list of tokens. -/
inductive Content
  | str (s : String)
  | toks (ts : List String)
deriving DecidableEq

/-- Python len() of a content value (characters of a string, elements of a
list). -/
def contentLen : Content → Nat
  | Content.str s => s.length
  | Content.toks ts => ts.length

/-- Iterating a content value, as Python iteration does: a list yields its
elements, a string yields its characters as one-character strings. -/
def contentElems : Content → List String
  | Content.str s => s.toList.map (fun c => String.singleton c)
  | Content.toks ts => ts

/-- Python slice-bound normalisation for t[a:b]: negative indices count
from the end, then the bound is clamped into [0, len]. -/
def sliceBound (n : Nat) (i : Int) : Nat :=
  if i < 0 then ((n : Int) + i).toNat else min i.toNat n

/-- Python slicing t[a:b] on a content value. -/
def contentSlice (t : Content) (a b : Int) : Content :=
  match t with
  | Content.str s =>
      Content.str ((s.take (sliceBound s.length b)).drop (sliceBound s.length a))
  | Content.toks ts =>
      Content.toks ((ts.take (sliceBound ts.length b)).drop (sliceBound ts.length a))

/-- Number of elements of Python range(0, stop, step) for step ≠ 0. -/
def pyRangeLen (stop step : Int) : Nat :=
  if 0 < step then (stop + step - 1).toNat / step.toNat
  else ((-stop) + (-step) - 1).toNat / (-step).toNat

/-- Python range(0, stop, step) as a list; step 0 raises ValueError. -/
def pyRange (stop step : Int) : Except PyErr (List Int) :=
  if step = 0 then Except.error (PyErr.valueError ("range arg 3 must not be zero"))
  else Except.ok ((List.range (pyRangeLen stop step)).map (fun i => (i : Int) * step))

/-- Adding a Python int to a PyVal number (int stays int, float stays
float); used for the roundedsize remainder distribution where the source
adds ints to possibly float boundary values. -/
def addI (v : PyVal) (k : Int) : PyVal :=
  match v with
  | PyVal.int n => PyVal.int (n + k)
  | PyVal.float q => PyVal.float { num := q.num + k * q.den, den := q.den }
  | x => x

/-- Zero-padded label suffix, the %04d of the source's label format. -/
def fmt04 (n : Nat) : String :=
  if n < 10 then ("000") ++ toString n
  else if n < 100 then ("00") ++ toString n
  else if n < 1000 then ("0") ++ toString n
  else toString n

/-- Character class of the default tokenizer regex [^\w]+: a word char is
alphanumeric or underscore. -/
def isWordChar (c : Char) : Bool :=
  c.isAlpha || c.isDigit || c = '_'

mutual

/-- Replaces each maximal run of non-word characters by a single space,
embedding re.sub on the default word_tokenize pattern. -/
def collapseNonWord : List Char → List Char
  | [] => []
  | c :: rest =>
      if isWordChar c then c :: collapseNonWord rest
      else ' ' :: skipNonWordRun rest

/-- Skips the remainder of a run of non-word characters (helper of
collapseNonWord). -/
def skipNonWordRun : List Char → List Char
  | [] => []
  | c :: rest =>
      if isWordChar c then c :: collapseNonWord rest
      else skipNonWordRun rest

end

/-- Whitespace split of a character list into non-empty words, the
behaviour of Python str.split() on the substituted text (whose only
whitespace is the space character the substitution introduced); acc holds
the current word reversed. -/
def splitWords : List Char → List Char → List String
  | [], acc => if acc.isEmpty then [] else [String.mk acc.reverse]
  | c :: rest, acc =>
      if c = ' ' then
        if acc.isEmpty then splitWords rest []
        else String.mk acc.reverse :: splitWords rest []
      else splitWords rest (c :: acc)

/-- Tokenize.word_tokenize with the default regex and lowercase=True
(src/nlp/tokenize.py lines 69-87): substitute non-word runs by a space,
lowercase, then whitespace-split discarding empties. -/
def word_tokenize (sent : String) : List String :=
  let cs := collapseNonWord sent.data
  let cs := cs.map Char.toLower
  splitWords cs []

/-- Modelled from the spec: the sentence tokenizer is the external nltk
collaborator (nltk.sent_tokenize), which is not part of this repository;
per the spec it is a pure function from text to the ordered list of its
sentences.  The claims only exercise single-sentence texts, for which it
returns the text as the only sentence. -/
def sent_tokenize_model (text : String) : List String := [text]

/-- Tokenize.tokenize for the constructor defaults (sent_tokenizer = None,
i.e. the nltk collaborator, word_tokenizer = None, keep_sentences = False,
ngrams = 1, lowercase = True): sentence-split, word-tokenize each sentence
and concatenate; the ngrams and keep_sentences branches are not taken
under these defaults. -/
def Tokenize.tokenize (sentTok : String → List String) (text : String) : List String :=
  ((sentTok text).map word_tokenize).flatten

/-- Default tokenizer reference installed by BOWCorpus.__init__
(Tokenize().tokenize). -/
def defaultTokenizer : String → List String :=
  Tokenize.tokenize sent_tokenize_model

/-- Filesystem model: an association list from filename to file text; a
path absent from it is unreadable. -/
def FS : Type := List (String × String)

/-- Python open(t, encoding, errors).read(): t must be a string naming a
readable file, otherwise TypeError (a list as path) or FileNotFoundError. -/
def pyOpenRead (fs : FS) : Content → Except PyErr String
  | Content.str p =>
      match List.lookup p fs with
      | some s => Except.ok s
      | Option.none => Except.error (PyErr.fileNotFoundError p)
  | Content.toks _ => Except.error (PyErr.typeError ("expected str, bytes or os.PathLike object, not list"))

/-- State of a BOWCorpus (src/corpora/bowcorpus.py): the bound items, the
per-item lazy-state lists and the five processing parameters.  The
pre-fit scalar placeholders of __init__ are modelled by empty lists. -/
structure BOWCorpus where
  texts : List (String × Content)
  filenames : Bool
  in_memory : List Bool
  tokenized : List (Option Bool)
  n_tokens : List (Option Nat)
  tokenize : PyVal
  tokenizer : String → List String
  stopwords : Option (List String)
  gowords : Option (List String)
  keep_in_memory : Bool

/-- BOWCorpus.__init__: default attribute values. -/
def BOWCorpus.init : BOWCorpus :=
  { texts := [], filenames := false, in_memory := [], tokenized := [], n_tokens := [],
    tokenize := PyVal.none, tokenizer := defaultTokenizer,
    stopwords := Option.none, gowords := Option.none, keep_in_memory := false }

/-- Truthiness of an optional word list (Python: None and [] are falsy). -/
def listTruthy (o : Option (List String)) : Bool :=
  match o with
  | some l => !l.isEmpty
  | Option.none => false

/-- Truthiness of the not-operator on a tri-state tokenized entry (Python:
not None = True, not False = True, not True = False). -/
def pyNotOpt (v : Option Bool) : Bool :=
  match v with
  | some b => !b
  | Option.none => true

/-- Shapes a caller can pass to fit: a mapping, a list of (label, content)
pairs, a bare list of filename strings, or a single glob pattern string. -/
inductive FitInput
  | dict (m : List (String × Content))
  | pairs (l : List (String × Content))
  | strs (l : List String)
  | pattern (s : String)

/-- Python len() of a fit input (a pattern string has its character
count). -/
def FitInput.pyLen : FitInput → Nat
  | FitInput.dict m => m.length
  | FitInput.pairs l => l.length
  | FitInput.strs l => l.length
  | FitInput.pattern s => s.length

/-- os.path.split(f)[1]: the final path segment of a filename. -/
def pathSplitTail (f : String) : String :=
  match (f.splitOn ("/")).getLast? with
  | some t => t
  | Option.none => f

/-- BOWCorpus.fit (lines 44-140): normalises the accepted input shapes,
terminates via sys.exit on an empty source, derives labels for bare
filename lists, and initialises the per-item state lists.  glb is the
filesystem glob collaborator. -/
def BOWCorpus.fit (glb : String → List String) (c : BOWCorpus)
    (texts : FitInput) (filenames : Bool) : Except PyErr BOWCorpus := do
  let texts : FitInput :=
    match texts with
    | FitInput.dict m => FitInput.pairs m
    | x => x
  if texts.pyLen = 0 then throw PyErr.systemExit
  let isStrShape : Bool :=
    match texts with
    | FitInput.pattern _ => true
    | FitInput.strs _ => true
    | _ => false
  let filenames := if isStrShape && !filenames then true else filenames
  if filenames then do
    let texts2 : List (String × Content) ←
      match texts with
      | FitInput.pattern s =>
          match glb s with
          | [] => throw PyErr.indexError
          | fl => pure (fl.map (fun f => (pathSplitTail f, Content.str f)))
      | FitInput.strs l => pure (l.map (fun f => (pathSplitTail f, Content.str f)))
      | FitInput.pairs l => pure l
      | FitInput.dict m => pure m
    pure { c with texts := texts2, filenames := true,
                  in_memory := List.replicate texts2.length false,
                  tokenized := List.replicate texts2.length (some false),
                  n_tokens := List.replicate texts2.length Option.none }
  else
    match texts with
    | FitInput.pairs l =>
        pure { c with texts := l, filenames := c.filenames,
                      in_memory := List.replicate l.length true,
                      tokenized := List.replicate l.length Option.none,
                      n_tokens := List.replicate l.length Option.none }
    | _ => throw PyErr.systemExit

/-- BOWCorpus.set_params (lines 142-163): merge-only setter; a parameter
left at None keeps the current value (the comparisons in the source are
equality with None, so False and 0 do take effect here). -/
def BOWCorpus.set_params (c : BOWCorpus) (tokenize : PyVal)
    (tokenizer : Option (String → List String))
    (stopwords gowords : Option (List String))
    (keep_in_memory : Option Bool) : BOWCorpus :=
  { c with
    tokenize := if tokenize = PyVal.none then c.tokenize else tokenize,
    tokenizer := match tokenizer with
                 | some f => f
                 | Option.none => c.tokenizer,
    stopwords := match stopwords with
                 | some l => some l
                 | Option.none => c.stopwords,
    gowords := match gowords with
               | some l => some l
               | Option.none => c.gowords,
    keep_in_memory := match keep_in_memory with
                      | some b => b
                      | Option.none => c.keep_in_memory }

/-- BOWCorpus.tokenize_preprocess (lines 245-259): tokenize when the item
is not yet tokenized (recording n_tokens), then drop stopwords, then keep
gowords, in that order.  Returns the processed content and the new
n_tokens entry.  Applying the default tokenizer to an already-listed
content raises (nltk rejects a list), which is unreachable because the
caller only reaches the tokenizer with untokenized string content. -/
def BOWCorpus.tokenize_preprocess (c : BOWCorpus) (i : Nat) (t : Content) :
    Except PyErr (Content × Option Nat) := do
  let (t, nt) ←
    if pyNotOpt (c.tokenized.getD i Option.none) then
      match t with
      | Content.str s =>
          let ts := c.tokenizer s
          pure (Content.toks ts, some ts.length)
      | Content.toks _ =>
          throw (PyErr.typeError ("expected string or bytes-like object"))
    else
      pure (t, c.n_tokens.getD i Option.none)
  let t :=
    if listTruthy c.stopwords then
      Content.toks ((contentElems t).filter
        (fun w => !(c.stopwords.getD []).contains w))
    else t
  let t :=
    if listTruthy c.gowords then
      Content.toks ((contentElems t).filter
        (fun w => (c.gowords.getD []).contains w))
    else t
  pure (t, nt)

/-- Result of one process_text call: the mutated corpus, the served
(label, content) pair and the number of file reads performed. -/
structure ProcResult where
  corpus : BOWCorpus
  label : String
  content : Content
  reads : Nat

/-- Step 1 of BOWCorpus.process_text (lines 214-216): whenever the corpus
is file-backed the content is opened as a path and read — the source does
not consult in_memory here.  Returns the (possibly read) content and the
number of file reads performed. -/
def BOWCorpus.readStep (fs : FS) (c : BOWCorpus) (t : Content) :
    Except PyErr (Content × Nat) :=
  if c.filenames then
    match pyOpenRead fs t with
    | Except.error e => Except.error e
    | Except.ok s => Except.ok (Content.str s, 1)
  else Except.ok (t, 0)

/-- Step 2 of BOWCorpus.process_text (lines 218-224): on first encounter
(tokenized[i] is None) deduce the tokenized flag from the content shape and
record n_tokens for a token list. -/
def BOWCorpus.deduceStep (c : BOWCorpus) (i : Nat) (t : Content) : BOWCorpus :=
  let p :=
    if (c.tokenized.getD i Option.none) = Option.none then
      match t with
      | Content.toks ts => ((some true : Option Bool), (some ts.length : Option Nat))
      | Content.str _ => ((some false : Option Bool), c.n_tokens.getD i Option.none)
    else (c.tokenized.getD i Option.none, c.n_tokens.getD i Option.none)
  { c with tokenized := c.tokenized.set i p.1, n_tokens := c.n_tokens.set i p.2 }

/-- Step 3 of BOWCorpus.process_text (lines 226-235): apply the tokenize
mode — tokenize-and-filter when it compares equal to True, pass through
when it is None, and join a tokenized item with single spaces otherwise.
Returns the content and the new n_tokens entry. -/
def BOWCorpus.modeStep (c : BOWCorpus) (i : Nat) (t : Content) :
    Except PyErr (Content × Option Nat) :=
  if c.tokenize.pyEq (PyVal.bool true) then
    c.tokenize_preprocess i t
  else if c.tokenize.pyEq PyVal.none then
    Except.ok (t, c.n_tokens.getD i Option.none)
  else
    Except.ok ((if (c.tokenized.getD i Option.none) = some true then
                  Content.str (String.intercalate (" ") (contentElems t))
                else t),
               c.n_tokens.getD i Option.none)

/-- Step 6 of BOWCorpus.process_text (lines 237-241): under keep_in_memory,
store the post-transform pair back onto texts the first time. -/
def BOWCorpus.memoStep (c : BOWCorpus) (i : Nat) (l : String) (t : Content) : BOWCorpus :=
  if c.keep_in_memory && !(c.in_memory.getD i false) then
    { c with texts := c.texts.set i (l, t), in_memory := c.in_memory.set i true }
  else c

/-- BOWCorpus.process_text (lines 209-243): the full per-access pipeline,
composing the read, shape-deduction, tokenize-mode and memoization steps in
source order (the n_tokens entry produced by the mode step is written back
between steps, as the source mutates self.n_tokens in place). -/
def BOWCorpus.process_text (fs : FS) (c : BOWCorpus) (i : Nat)
    (l : String) (t : Content) : Except PyErr ProcResult :=
  match c.readStep fs t with
  | Except.error e => Except.error e
  | Except.ok (t1, reads) =>
      let c1 := c.deduceStep i t1
      match c1.modeStep i t1 with
      | Except.error e => Except.error e
      | Except.ok (t2, nt2) =>
          let c2 := { c1 with n_tokens := c1.n_tokens.set i nt2 }
          let c3 := c2.memoStep i l t2
          Except.ok { corpus := c3, label := l, content := t2, reads := reads }

/-- BOWCorpus.__getitem__ for an integer key (lines 173-185): fetch the
stored pair and run it through process_text. -/
def BOWCorpus.getItem (fs : FS) (c : BOWCorpus) (key : Nat) :
    Except PyErr (BOWCorpus × (String × Content) × Nat) := do
  let (l, t) := c.texts.getD key (("", Content.str ("")))
  let r ← c.process_text fs key l t
  pure (r.corpus, (r.label, r.content), r.reads)

/-- State of a ChunkCorpus (src/corpora/texts/chunkcorpus.py): the wrapped
BOWCorpus state, the six chunk-policy fields and the per-item chunkindices
cache.  The policy fields are PyVal because the source stores whatever the
caller (or, for roundedsize, the set_params bug) puts there. -/
structure ChunkCorpus where
  bow : BOWCorpus
  chunksize : PyVal
  nchunks : PyVal
  overlap : PyVal
  roundedsize : PyVal
  minsize : PyVal
  upscale : PyVal
  chunkindices : List (Option (List (PyVal × PyVal)))

/-- ChunkCorpus.set_params (lines 47-89).  Line 79 of the source assigns
the overlap argument, not the roundedsize argument, to self.roundedsize;
line 84 clears the chunkindices cache only when at least one passed
argument is truthy.  Both are embedded as written.  tokenize is the only
kwarg forwarded to the parent set_params that the claims exercise. -/
def ChunkCorpus.set_params (c : ChunkCorpus)
    (chunksize nchunks overlap roundedsize minsize upscale tokenize : PyVal) : ChunkCorpus :=
  let cs := if chunksize = PyVal.none then c.chunksize else chunksize
  let nc := if nchunks = PyVal.none then c.nchunks else nchunks
  let ov := if overlap = PyVal.none then c.overlap else overlap
  let rs := if roundedsize = PyVal.none then c.roundedsize else overlap
  let ms := if minsize = PyVal.none then c.minsize else minsize
  let us := if upscale = PyVal.none then c.upscale else upscale
  let ci :=
    if chunksize.truthy || nchunks.truthy || overlap.truthy
        || roundedsize.truthy || minsize.truthy || upscale.truthy then
      List.replicate c.chunkindices.length Option.none
    else c.chunkindices
  { c with chunksize := cs, nchunks := nc, overlap := ov, roundedsize := rs,
           minsize := ms, upscale := us, chunkindices := ci,
           bow := c.bow.set_params tokenize Option.none Option.none Option.none Option.none }

/-- ChunkCorpus.__init__ (lines 15-33): parent init, policy defaults
(chunksize = 1.0, overlap = 0, flags False), then set_params(tokenize=True)
to force tokenization on. -/
def ChunkCorpus.init : ChunkCorpus :=
  let c : ChunkCorpus :=
    { bow := BOWCorpus.init, chunksize := PyVal.float { num := 1, den := 1 }, nchunks := PyVal.none,
      overlap := PyVal.int 0, roundedsize := PyVal.bool false,
      minsize := PyVal.bool false, upscale := PyVal.bool false, chunkindices := [] }
  c.set_params PyVal.none PyVal.none PyVal.none PyVal.none PyVal.none PyVal.none (PyVal.bool true)

/-- ChunkCorpus.fit (lines 35-45): parent fit, then reset chunkindices to
a None per item. -/
def ChunkCorpus.fit (glb : String → List String) (c : ChunkCorpus)
    (texts : FitInput) (filenames : Bool) : Except PyErr ChunkCorpus := do
  let bow ← c.bow.fit glb texts filenames
  pure { c with bow := bow,
                chunkindices := List.replicate bow.texts.length Option.none }

/-- Conversion of a cached boundary value to a slice index: Python accepts
ints (and bools, which are ints) and raises TypeError on floats. -/
def pyToIdx : PyVal → Except PyErr Int
  | PyVal.int n => Except.ok n
  | PyVal.bool b => Except.ok (if b then 1 else 0)
  | _ => Except.error (PyErr.typeError ("slice indices must be integers"))

/-- Emission loop of chunk_text (lines 169-173): for each cached (start,
stop) pair yield the suffixed label and the token slice; a float boundary
raises TypeError when used as a slice index. -/
def emitChunks (label : String) (text : Content) (pairs : List (PyVal × PyVal)) :
    Except PyErr (List (String × Option Content)) :=
  pairs.enum.mapM (fun p => do
    let a ← pyToIdx p.2.1
    let b ← pyToIdx p.2.2
    pure (label ++ ("_") ++ fmt04 p.1, some (contentSlice text a b)))

/-- ChunkCorpus.chunk_text (lines 109-173), embedded branch by branch with
Python 3 semantics:
* line 121 references the undefined local name nchunks, so a truthy
  self.nchunks raises NameError on every non-empty text;
* an empty text leaves the local chunksize unbound and raises NameError at
  the line 135 comparison (or earlier if overlap is a float);
* the upscale branch computes chunksize / text_len with true division, so
  multiplying the token list by the float factor raises TypeError;
* under roundedsize, to_add = n_leftover / len(starts) is a float; when it
  is non-zero every boundary becomes a float (their exact binary values are
  modelled as exact fractions; only their non-intness is ever observable).
Returns the corpus with the possibly-updated cache together with the
emitted (label, content) pairs; a None chunk is emitted as an Option.none
content. -/
def ChunkCorpus.chunk_text (c : ChunkCorpus) (label : String) (text : Content)
    (index : Nat) : Except PyErr (ChunkCorpus × List (String × Option Content)) := do
  let cached := c.chunkindices.getD index Option.none
  let (c, chunk) ←
    if cached = Option.none then do
      let text_len := contentLen text
      let chunkLocal : Option Int ←
        if text_len = 0 then
          pure Option.none
        else if c.nchunks.truthy then
          throw (PyErr.nameError ("nchunks"))
        else
          match c.chunksize with
          | PyVal.float q => pure (some (pyTrunc (q.intMul (text_len : Int))))
          | PyVal.int n => pure (some n)
          | PyVal.bool b => pure (some (if b then 1 else 0))
          | PyVal.none => throw (PyErr.typeError ("NoneType is not a valid chunksize"))
      let ovLocal : Option Int ←
        match c.overlap with
        | PyVal.float q =>
            match chunkLocal with
            | some cs => pure (some (pyTrunc (q.intMul cs)))
            | Option.none => throw (PyErr.nameError ("chunksize"))
        | PyVal.int n => pure (some n)
        | PyVal.bool b => pure (some (if b then 1 else 0))
        | PyVal.none => pure Option.none
      let cs ←
        match chunkLocal with
        | some cs => pure cs
        | Option.none => throw (PyErr.nameError ("chunksize"))
      if cs > (text_len : Int) then
        if c.minsize.truthy then
          pure (c, some (Option.none : Option Content))
        else if c.upscale.truthy then
          throw (PyErr.typeError ("cannot multiply sequence by non-int of type float"))
        else
          pure (c, some (some text))
      else do
        let ov ←
          match ovLocal with
          | some v => pure v
          | Option.none => throw (PyErr.typeError ("unsupported operand type for int and NoneType"))
        let step : Int := if ov ≠ 0 then cs - ov else cs
        let starts ← pyRange ((text_len : Int) - cs + 1) step
        let stops := starts.map (fun s => s + cs)
        let ci ←
          if c.roundedsize.truthy then do
            match stops.getLast? with
            | Option.none => throw PyErr.indexError
            | some last => do
                let n_leftover : Int := (text_len : Int) - last
                let to_add : PyFloat :=
                  { num := n_leftover, den := (starts.length : Int) }
                let sv :=
                  if to_add.num ≠ 0 then
                    starts.enum.map (fun p =>
                      PyVal.float { num := p.2 * to_add.den + (p.1 : Int) * to_add.num,
                                    den := to_add.den })
                  else starts.map PyVal.int
                let tv :=
                  if to_add.num ≠ 0 then
                    stops.enum.map (fun p =>
                      PyVal.float { num := p.2 * to_add.den + ((p.1 : Int) + 1) * to_add.num,
                                    den := to_add.den })
                  else stops.map PyVal.int
                let n2 : Int := n_leftover % (starts.length : Int)
                let sv :=
                  if n2 ≠ 0 then
                    sv.enum.map (fun p =>
                      addI p.2 (if (p.1 : Int) < n2 then (p.1 : Int) else n2))
                  else sv
                let tv :=
                  if n2 ≠ 0 then
                    tv.enum.map (fun p =>
                      addI p.2 (if (p.1 : Int) < n2 then (p.1 : Int) + 1 else n2))
                  else tv
                pure (sv.zip tv)
          else
            pure ((starts.map PyVal.int).zip (stops.map PyVal.int))
        let c := { c with chunkindices := c.chunkindices.set index (some ci) }
        pure (c, (Option.none : Option (Option Content)))
    else
      pure (c, (Option.none : Option (Option Content)))
  match c.chunkindices.getD index Option.none with
  | Option.none =>
      match chunk with
      | some ch => pure (c, [(label, ch)])
      | Option.none => throw (PyErr.nameError ("chunk"))
  | some pairs => do
      let out ← emitChunks label text pairs
      pure (c, out)

/-- ChunkCorpus.__getitem__ for an integer key (lines 96-107).  The parent
__getitem__ is a generator function (it yields in both branches), so line
103's pair assignment unpacks a generator that yields exactly one item —
the (label, text) pair: Python runs process_text for the first element and
then raises ValueError (not enough values to unpack); chunk_text is never
reached on the integer-key path. -/
def ChunkCorpus.getItem (fs : FS) (c : ChunkCorpus) (key : Nat) :
    Except PyErr (ChunkCorpus × List (String × Option Content)) := do
  let _ ← c.bow.getItem fs key
  throw (PyErr.valueError ("not enough values to unpack (expected 2, got 1)"))

/-- ChunkCorpus.__iter__ (lines 91-94): enumerate the parent iteration and
chunk each processed item, concatenating the emitted pairs in order. -/
def ChunkCorpus.iterAll (fs : FS) (c : ChunkCorpus) :
    Except PyErr (ChunkCorpus × List (String × Option Content)) :=
  (List.range c.bow.texts.length).foldlM (fun acc i => do
    let (c, out) := (acc : ChunkCorpus × List (String × Option Content))
    let (l, t) := c.bow.texts.getD i (("", Content.str ("")))
    let r ← c.bow.process_text fs i l t
    let c := { c with bow := r.corpus }
    let (c, pairs) ← c.chunk_text r.label r.content i
    pure (c, out ++ pairs)) (c, [])

/-- Glob collaborator for scenarios that do not touch the filesystem (and
for patterns that match no files). -/
def glbEmpty : String → List String := fun _ => []

/-- Unwraps a fit result in scenarios where fit is known to succeed. -/
def getBow (e : Except PyErr BOWCorpus) : BOWCorpus :=
  match e with
  | Except.ok c => c
  | Except.error _ => BOWCorpus.init

/-- Unwraps a ChunkCorpus fit result in scenarios where fit succeeds. -/
def getChunk (e : Except PyErr ChunkCorpus) : ChunkCorpus :=
  match e with
  | Except.ok c => c
  | Except.error _ => ChunkCorpus.init

/-- Projection: the (label, content) pair served by a BOWCorpus access. -/
def pairOfB (e : Except PyErr (BOWCorpus × (String × Content) × Nat)) :
    Except PyErr (String × Content) := e.map (fun p => p.2.1)

/-- Projection: the number of file reads performed by a BOWCorpus access. -/
def readsOfB (e : Except PyErr (BOWCorpus × (String × Content) × Nat)) :
    Except PyErr Nat := e.map (fun p => p.2.2)

/-- Projection: the corpus state after a BOWCorpus access. -/
def stateOfB (e : Except PyErr (BOWCorpus × (String × Content) × Nat)) : BOWCorpus :=
  match e with
  | Except.ok p => p.1
  | Except.error _ => BOWCorpus.init

/-- Projection: the pairs emitted by a ChunkCorpus access or iteration. -/
def emissionsOf (e : Except PyErr (ChunkCorpus × List (String × Option Content))) :
    Except PyErr (List (String × Option Content)) := e.map (fun p => p.2)

/-- Projection: the chunk corpus state after an access or iteration. -/
def stateOfC (e : Except PyErr (ChunkCorpus × List (String × Option Content))) : ChunkCorpus :=
  match e with
  | Except.ok p => p.1
  | Except.error _ => ChunkCorpus.init

/-- Concatenation, in boundary order, of the token slices of emitted
chunks (the round-trip observation of the chunking claims). -/
def concatEmitted (l : List (String × Option Content)) : List String :=
  (l.map (fun p =>
    match p.2 with
    | some (Content.toks ts) => ts
    | _ => [])).flatten

/-- Whether a processed access served raw (untokenized) string content. -/
def servesRawText (e : Except PyErr ProcResult) : Bool :=
  match e with
  | Except.ok r =>
      match r.content with
      | Content.str _ => true
      | Content.toks _ => false
  | Except.error _ => false

/-- Five-token item used by the chunking scenarios. -/
def toks5 : List String := ["t0", "t1", "t2", "t3", "t4"]

/-- Scenario C1: five-token item, set_params(chunksize=2, overlap=0,
roundedsize=True). -/
def cpC1 : ChunkCorpus :=
  (getChunk (ChunkCorpus.init.fit glbEmpty
      (FitInput.pairs [(("x"), Content.toks toks5)]) false)).set_params
    (PyVal.int 2) PyVal.none (PyVal.int 0) (PyVal.bool true)
    PyVal.none PyVal.none PyVal.none

/-- Scenario C1, second part: the same corpus with roundedsize forced to
True directly on the field, bypassing the set_params assignment bug. -/
def cpC1rs : ChunkCorpus :=
  { cpC1 with roundedsize := PyVal.bool true }

/-- Scenario C2: one file-backed item over a one-file filesystem. -/
def fsC2 : FS := [(("f.txt"), ("hello world"))]

/-- Scenario C2: the fitted file-backed corpus with keep_in_memory=True. -/
def bowC2 : BOWCorpus :=
  (getBow (BOWCorpus.init.fit glbEmpty
      (FitInput.pairs [(("a"), Content.str ("f.txt"))]) true)).set_params
    PyVal.none Option.none Option.none Option.none (some true)

/-- Scenario C2: the corpus state after the first access (the post-read
content has been stored back onto texts). -/
def bowC2' : BOWCorpus := stateOfB (bowC2.getItem fsC2 0)

/-- Scenario C2, control: the same corpus with keep_in_memory left False. -/
def bowC2f : BOWCorpus :=
  getBow (BOWCorpus.init.fit glbEmpty
    (FitInput.pairs [(("a"), Content.str ("f.txt"))]) true)

/-- Scenario C2, control: state after the first keep_in_memory=False
access. -/
def bowC2f' : BOWCorpus := stateOfB (bowC2f.getItem fsC2 0)

/-- Scenario C3: five-token item chunked with chunksize=2, overlap=1. -/
def cpC3a : ChunkCorpus :=
  (getChunk (ChunkCorpus.init.fit glbEmpty
      (FitInput.pairs [(("x"), Content.toks toks5)]) false)).set_params
    (PyVal.int 2) PyVal.none (PyVal.int 1) PyVal.none
    PyVal.none PyVal.none PyVal.none

/-- Scenario C3: state after one full iteration, which populates the cache
with the overlap=1 boundaries. -/
def cpC3b : ChunkCorpus := stateOfC (cpC3a.iterAll [])

/-- Scenario C3: set_params(overlap=0) on the populated corpus — a policy
change to a falsy value. -/
def cpC3c : ChunkCorpus :=
  cpC3b.set_params PyVal.none PyVal.none (PyVal.int 0) PyVal.none
    PyVal.none PyVal.none PyVal.none

/-- Three-token item of the small-item-policy scenario. -/
def toks3 : List String := ["w0", "w1", "w2"]

/-- Scenario C4: three-token item with chunksize=10 (default flags). -/
def cpC4 : ChunkCorpus :=
  (getChunk (ChunkCorpus.init.fit glbEmpty
      (FitInput.pairs [(("s"), Content.toks toks3)]) false)).set_params
    (PyVal.int 10) PyVal.none PyVal.none PyVal.none
    PyVal.none PyVal.none PyVal.none

/-- Scenario C4 with minsize=True. -/
def cpC4m : ChunkCorpus :=
  cpC4.set_params PyVal.none PyVal.none PyVal.none PyVal.none
    (PyVal.bool true) PyVal.none PyVal.none

/-- Scenario C4 with upscale=True. -/
def cpC4u : ChunkCorpus :=
  cpC4.set_params PyVal.none PyVal.none PyVal.none PyVal.none
    PyVal.none (PyVal.bool true) PyVal.none

/-- An apostrophe character, written via its code point. -/
def apos : String := String.singleton (Char.ofNat 39)

/-- Scenario C5: the sonnet line used by the spec and the test suite. -/
def sonnetText : String :=
  ("Shall I compare thee to a summer") ++ apos ++ ("s day?")

/-- Scenario C5: chunk engine over the raw sonnet line with chunksize=4,
overlap=0 and the tokenization forced on by the constructor. -/
def cpC5 : ChunkCorpus :=
  (getChunk (ChunkCorpus.init.fit glbEmpty
      (FitInput.pairs [(("a"), Content.str sonnetText)]) false)).set_params
    (PyVal.int 4) PyVal.none (PyVal.int 0) PyVal.none
    PyVal.none PyVal.none PyVal.none

/-- Chunk-policy state used by the overlap-validation analysis: integer
chunksize and overlap, all flags False, one unchunked item slot. -/
def mkC6 (cs ov : Int) : ChunkCorpus :=
  { bow := BOWCorpus.init, chunksize := PyVal.int cs, nchunks := PyVal.none,
    overlap := PyVal.int ov, roundedsize := PyVal.bool false,
    minsize := PyVal.bool false, upscale := PyVal.bool false,
    chunkindices := [Option.none] }

/-- Scenario C7: four-token item with set_params(nchunks=2). -/
def cpC7 : ChunkCorpus :=
  (getChunk (ChunkCorpus.init.fit glbEmpty
      (FitInput.pairs [(("x"), Content.toks ["a", "b", "c", "d"])]) false)).set_params
    PyVal.none (PyVal.int 2) PyVal.none PyVal.none
    PyVal.none PyVal.none PyVal.none

/-- Scenario C9: pre-tokenized item with stopword and goword sets. -/
def bowC9 : BOWCorpus :=
  (getBow (BOWCorpus.init.fit glbEmpty
      (FitInput.pairs [(("t"), Content.toks ["rough", "winds", "the", "buds"])])
      false)).set_params
    (PyVal.bool true) Option.none (some ["the"]) (some ["the", "rough"]) Option.none

/-- Scenario C10 witness corpus: a chunk engine fitted over one raw string
item, with tokenize forced on by the constructor. -/
def bowC10 : BOWCorpus :=
  (getChunk (ChunkCorpus.init.fit glbEmpty
    (FitInput.pairs [(("a"), Content.str ("hi there"))]) false)).bow

/-- Auxiliary: Python range(0, stop, step) is empty whenever the stop bound
is positive and the step is negative. -/
theorem pyRange_neg_step (stop step : Int) (h1 : 1 ≤ stop) (h2 : step < 0) :
    pyRange stop step = Except.ok [] := by
  have hz : ¬ step = 0 := by omega
  have hp : ¬ 0 < step := by omega
  have hlt : ((-stop) + (-step) - 1).toNat < (-step).toNat := by omega
  unfold pyRange pyRangeLen
  rw [if_neg hz, if_neg hp, Nat.div_eq_of_lt hlt]
  rfl

/-- Claim C1 (code_bug evaluation): on a five-token item configured via
set_params(chunksize=2, overlap=0, roundedsize=True), the roundedsize field
actually receives the overlap argument (source line 79) and stays falsy, so
the emitted chunk slices cover only tokens 0-3 and their concatenation in
boundary order is not the original token sequence (token 4 is dropped);
moreover, forcing roundedsize=True directly on the field makes the leftover
distribution produce float boundaries (Python 3 true division) and the
emission raises TypeError instead of chunking. -/
theorem roundedsize_roundtrip_code_bug :
    cpC1.roundedsize = PyVal.int 0 ∧
    emissionsOf (cpC1.iterAll []) =
      Except.ok [(("x_0000"), some (Content.toks ["t0", "t1"])),
                 (("x_0001"), some (Content.toks ["t2", "t3"]))] ∧
    (emissionsOf (cpC1.iterAll [])).map concatEmitted =
      Except.ok ["t0", "t1", "t2", "t3"] ∧
    ["t0", "t1", "t2", "t3"] ≠ toks5 ∧
    emissionsOf (cpC1rs.iterAll []) =
      Except.error (PyErr.typeError ("slice indices must be integers")) := by
  exact ⟨rfl, rfl, rfl, by decide, rfl⟩

/-- Claim C2 (code_bug evaluation): on a file-backed corpus with
keep_in_memory=True, the first access reads the file once, serves its text
and stores the post-transform pair back onto texts; but the second access
re-enters the filenames branch (process_text line 215 does not consult
in_memory) and tries to open the cached text as a path, raising
FileNotFoundError instead of serving the cached content.  With
keep_in_memory=False each access re-reads the file, as the claim states. -/
theorem keep_in_memory_reread_code_bug :
    pairOfB (bowC2.getItem fsC2 0) = Except.ok (("a"), Content.str ("hello world")) ∧
    readsOfB (bowC2.getItem fsC2 0) = Except.ok 1 ∧
    bowC2'.texts = [(("a"), Content.str ("hello world"))] ∧
    bowC2'.getItem fsC2 0 = Except.error (PyErr.fileNotFoundError ("hello world")) ∧
    pairOfB (bowC2f'.getItem fsC2 0) = Except.ok (("a"), Content.str ("hello world")) ∧
    readsOfB (bowC2f'.getItem fsC2 0) = Except.ok 1 ∧
    bowC2f'.texts = [(("a"), Content.str ("f.txt"))] := by
  exact ⟨rfl, rfl, rfl, rfl, rfl, rfl, rfl⟩

/-- Claim C3 (code_bug evaluation): after iterating a five-token item with
chunksize=2, overlap=1 (cache [(0,2),(1,3),(2,4),(3,5)]), calling
set_params(overlap=0) changes the overlap field but does not clear the
chunkindices cache, because the reset condition at source line 84 tests the
truthiness of the passed arguments and 0 is falsy; the subsequent iteration
serves the stale overlapping boundaries under the new policy. -/
theorem set_params_stale_cache_code_bug :
    cpC3b.chunkindices =
      [some [(PyVal.int 0, PyVal.int 2), (PyVal.int 1, PyVal.int 3),
             (PyVal.int 2, PyVal.int 4), (PyVal.int 3, PyVal.int 5)]] ∧
    cpC3c.overlap = PyVal.int 0 ∧
    cpC3c.chunkindices = cpC3b.chunkindices ∧
    emissionsOf (cpC3c.iterAll []) =
      Except.ok [(("x_0000"), some (Content.toks ["t0", "t1"])),
                 (("x_0001"), some (Content.toks ["t1", "t2"])),
                 (("x_0002"), some (Content.toks ["t2", "t3"])),
                 (("x_0003"), some (Content.toks ["t3", "t4"]))] := by
  exact ⟨rfl, rfl, rfl, rfl⟩

/-- Claim C4 (code_bug evaluation): iterating a three-token item with
chunksize=10, the default flags emit exactly one chunk equal to the
original tokens with the unsuffixed label (as claimed); but minsize=True
emits one (label, None) pair rather than suppressing the item, and
upscale=True raises TypeError because chunksize / text_len is a Python 3
float and a list cannot be multiplied by it. -/
theorem small_item_policy_code_bug :
    emissionsOf (cpC4.iterAll []) = Except.ok [(("s"), some (Content.toks toks3))] ∧
    emissionsOf (cpC4m.iterAll []) = Except.ok [(("s"), (Option.none : Option Content))] ∧
    cpC4u.iterAll [] =
      Except.error (PyErr.typeError ("cannot multiply sequence by non-int of type float")) := by
  exact ⟨rfl, rfl, rfl⟩

/-- Claim C5: for the source item ("a", the sonnet line) with tokenization
on under the default lowercasing tokenizer, chunksize=4 and overlap=0, the
first emitted pair of the chunk iteration is ("a_0000", ["shall", "i",
"compare", "thee"]). -/
theorem sonnet_first_chunk_confirmed :
    (emissionsOf (cpC5.iterAll [])).map List.head? =
      Except.ok (some (("a_0000"),
        some (Content.toks ["shall", "i", "compare", "thee"]))) := by
  exact rfl

/-- Claim C6 (counterexample): with resolved overlap 3 strictly greater
than resolved chunk size 2 on a five-token item, chunk computation does not
fail at all — it caches an empty boundary list and emits nothing — so in
particular it does not raise a ConfigurationError. -/
theorem overlap_configuration_error_counterexample :
    (mkC6 2 3).chunk_text ("x") (Content.toks toks5) 0 =
      Except.ok ({ mkC6 2 3 with chunkindices := [some []] },
                 ([] : List (String × Option Content))) ∧
    ¬ ((mkC6 2 3).chunk_text ("x") (Content.toks toks5) 0 =
        Except.error PyErr.configurationError) := by
  refine ⟨rfl, ?_⟩
  have h1 : (mkC6 2 3).chunk_text ("x") (Content.toks toks5) 0 =
      Except.ok ({ mkC6 2 3 with chunkindices := [some []] },
                 ([] : List (String × Option Content))) := rfl
  rw [h1]
  exact fun h => Except.noConfusion h

/-- Claim C7 (code_bug evaluation): with set_params(nchunks=2) on a
four-token item, iteration fails with NameError because source line 121
references the undefined local name nchunks instead of self.nchunks; no
chunk size floor(tokenCount / nChunks) is ever computed. -/
theorem nchunks_name_error_code_bug :
    cpC7.iterAll [] = Except.error (PyErr.nameError ("nchunks")) := by
  exact rfl

/-- Claim C8 (counterexample): binding an empty pair list does not raise a
ConfigurationError to the caller; fit logs an error and terminates the
process via sys.exit (SystemExit). -/
theorem empty_source_configuration_error_counterexample :
    BOWCorpus.init.fit glbEmpty (FitInput.pairs []) false =
      Except.error PyErr.systemExit ∧
    ¬ (BOWCorpus.init.fit glbEmpty (FitInput.pairs []) false =
        Except.error PyErr.configurationError) := by
  refine ⟨rfl, ?_⟩
  have h1 : BOWCorpus.init.fit glbEmpty (FitInput.pairs []) false =
      Except.error PyErr.systemExit := rfl
  rw [h1]
  intro h
  exact PyErr.noConfusion (Except.error.inj h)

/-- Claim C8 (amended): binding an empty list or an empty mapping
terminates via sys.exit (SystemExit, not a ConfigurationError raised to the
caller), and a glob pattern that matches no files raises IndexError while
deriving labels, because the emptiness check precedes glob expansion. -/
theorem empty_source_amended :
    BOWCorpus.init.fit glbEmpty (FitInput.pairs []) false =
      Except.error PyErr.systemExit ∧
    BOWCorpus.init.fit glbEmpty (FitInput.dict []) false =
      Except.error PyErr.systemExit ∧
    BOWCorpus.init.fit glbEmpty (FitInput.strs []) false =
      Except.error PyErr.systemExit ∧
    BOWCorpus.init.fit glbEmpty (FitInput.pattern ("*.txt")) false =
      Except.error PyErr.indexError := by
  exact ⟨rfl, rfl, rfl, rfl⟩

/-- Claim C9: with tokenization on, the stopword filter runs before the
goword filter: for stopwords equal to the set with the single word the, and gowords
containing the and rough, the pre-tokenized item [rough, winds, the, buds]
is served as exactly [rough]. -/
theorem stopwords_before_gowords_confirmed :
    pairOfB (bowC9.getItem [] 0) = Except.ok (("t"), Content.toks ["rough"]) := by
  exact rfl

/-- Auxiliary: Python range with a zero step raises ValueError. -/
theorem pyRange_zero_step (stop : Int) :
    pyRange stop 0 = Except.error (PyErr.valueError ("range arg 3 must not be zero")) := rfl

/-- Claim C6 (amended): no overlap validation exists in chunk_text.  For
integer policies on a non-empty item at least one chunk long, a resolved
overlap strictly greater than the chunk size makes the boundary range
empty, so computation succeeds, caches an empty boundary list and emits
zero chunks; a resolved overlap equal to the (non-zero) chunk size raises
ValueError from the zero range step.  Neither raises a ConfigurationError,
which the source does not define. -/
theorem overlap_validation_amended (cs ov : Int) (lbl : String) (ts : List String)
    (h1 : 1 ≤ cs) (h2 : cs ≤ (ts.length : Int)) :
    (cs < ov → (mkC6 cs ov).chunk_text lbl (Content.toks ts) 0 =
        Except.ok ({ mkC6 cs ov with chunkindices := [some []] },
                   ([] : List (String × Option Content)))) ∧
    (ov = cs → (mkC6 cs ov).chunk_text lbl (Content.toks ts) 0 =
        Except.error (PyErr.valueError ("range arg 3 must not be zero"))) := by
  have hlen : ts.length ≠ 0 := by omega
  have hngt : ¬ cs > (ts.length : Int) := by omega
  constructor
  · intro hlt
    have hov : ov ≠ 0 := by omega
    have hstep : cs - ov < 0 := by omega
    have hstop : 1 ≤ (ts.length : Int) - cs + 1 := by omega
    simp [ChunkCorpus.chunk_text, mkC6, contentLen, PyVal.truthy, hlen, hngt, hov,
      pyRange_neg_step _ _ hstop hstep, emitChunks, Except.bind, Bind.bind,
      Functor.map, Except.map, List.mapM.loop, pure, Except.pure]
  · intro heq
    have hov : ov ≠ 0 := by omega
    subst heq
    simp [ChunkCorpus.chunk_text, mkC6, contentLen, PyVal.truthy, hlen, hngt, hov,
      pyRange_zero_step, Except.bind, Bind.bind, Functor.map, Except.map, pure,
      Except.pure, sub_self]

/-- Claim C6 (witness): the amended theorem applied at chunk size 2 on the
five-token item, with overlap 3 (success with zero chunks) and overlap 2
(ValueError). -/
theorem overlap_validation_amended_witness :
    (mkC6 2 3).chunk_text ("x") (Content.toks toks5) 0 =
      Except.ok ({ mkC6 2 3 with chunkindices := [some []] },
                 ([] : List (String × Option Content))) ∧
    (mkC6 2 2).chunk_text ("x") (Content.toks toks5) 0 =
      Except.error (PyErr.valueError ("range arg 3 must not be zero")) := by
  constructor
  · exact (overlap_validation_amended 2 3 ("x") toks5 (by decide) (by decide)).1 (by decide)
  · exact (overlap_validation_amended 2 2 ("x") toks5 (by decide) (by decide)).2 rfl

/-- Auxiliary: reading the i-th entry after setting it yields either the
written value (index in range) or the default (index out of range). -/
theorem getD_set_or (l : List (Option Bool)) (i : Nat) (v : Option Bool) :
    (l.set i v).getD i Option.none = v ∨ (l.set i v).getD i Option.none = Option.none := by
  by_cases h : i < l.length
  · left
    rw [List.getD_eq_getElem?_getD, List.getElem?_set_self (by simpa using h)]
    rfl
  · right
    rw [List.getD_eq_getElem?_getD]
    rw [List.getElem?_eq_none (by simp; omega)]
    rfl

/-- Auxiliary: tokenize_preprocess only returns token-list content,
provided a tokenized-flag of True marks content that already is a token
list (the state consistency the pipeline maintains). -/
theorem tokenize_preprocess_toks (c : BOWCorpus) (i : Nat) (t : Content)
    (h : c.tokenized.getD i Option.none = some true → ∃ ts, t = Content.toks ts) :
    ∀ r, c.tokenize_preprocess i t = Except.ok r → ∃ ts, r.1 = Content.toks ts := by
  intro r hr
  unfold BOWCorpus.tokenize_preprocess at hr
  cases hv : c.tokenized.getD i Option.none with
  | none =>
      rw [hv] at hr
      cases t with
      | str s =>
          simp [pyNotOpt, Except.bind, Bind.bind, pure, Except.pure] at hr
          rw [← hr]
          split_ifs <;> exact ⟨_, rfl⟩
      | toks ts =>
          simp [pyNotOpt, Except.bind, Bind.bind, pure, Except.pure, throw,
            throwThe, MonadExceptOf.throw] at hr
  | some b =>
      cases b with
      | true =>
          obtain ⟨ts, rfl⟩ := h hv
          rw [hv] at hr
          simp [pyNotOpt, Except.bind, Bind.bind, pure, Except.pure] at hr
          rw [← hr]
          split_ifs <;> exact ⟨_, rfl⟩
      | false =>
          rw [hv] at hr
          cases t with
          | str s =>
              simp [pyNotOpt, Except.bind, Bind.bind, pure, Except.pure] at hr
              rw [← hr]
              split_ifs <;> exact ⟨_, rfl⟩
          | toks ts =>
              simp [pyNotOpt, Except.bind, Bind.bind, pure, Except.pure, throw,
                throwThe, MonadExceptOf.throw] at hr

/-- Auxiliary: the read step preserves the consistency hypothesis — when it
succeeds on a file-backed corpus the content it returns is a fresh string
(and a tokenized-flag of True then contradicts the hypothesis on the stored
content), and on a memory corpus the content passes through unchanged. -/
theorem readStep_consistency (fs : FS) (c : BOWCorpus) (i : Nat) (t t1 : Content) (n : Nat)
    (h : c.readStep fs t = Except.ok (t1, n))
    (hcons : c.tokenized.getD i Option.none = some true → ∃ ts, t = Content.toks ts) :
    c.tokenized.getD i Option.none = some true → ∃ ts, t1 = Content.toks ts := by
  unfold BOWCorpus.readStep at h
  by_cases hf : c.filenames
  · rw [if_pos hf] at h
    cases t with
    | toks ts => simp [pyOpenRead] at h
    | str p =>
        cases hrd : List.lookup p fs with
        | none => rw [pyOpenRead, hrd] at h; exact absurd h (by simp)
        | some s =>
            rw [pyOpenRead, hrd] at h
            intro hsome
            obtain ⟨ts, hts⟩ := hcons hsome
            exact Content.noConfusion hts
  · rw [if_neg hf] at h
    have h2 := Except.ok.inj h
    injection h2 with ha hb
    intro hsome
    obtain ⟨ts, hts⟩ := hcons hsome
    exact ⟨ts, by rw [← ha]; exact hts⟩

/-- Auxiliary: the shape-deduction step preserves the consistency
hypothesis for the entry it writes: after it, a tokenized-flag of True at i
still implies the processed content is a token list. -/
theorem deduceStep_consistency (c : BOWCorpus) (i : Nat) (t : Content)
    (hcons : c.tokenized.getD i Option.none = some true → ∃ ts, t = Content.toks ts) :
    (c.deduceStep i t).tokenized.getD i Option.none = some true →
      ∃ ts, t = Content.toks ts := by
  intro hsome
  unfold BOWCorpus.deduceStep at hsome
  simp only at hsome
  rcases getD_set_or c.tokenized i _ with hset | hset
  · rw [hset] at hsome
    by_cases hgd : c.tokenized.getD i Option.none = Option.none
    · rw [if_pos hgd] at hsome
      cases t with
      | toks ts => exact ⟨ts, rfl⟩
      | str s => simp at hsome
    · rw [if_neg hgd] at hsome
      exact hcons hsome
  · rw [hset] at hsome
    exact Option.noConfusion hsome

/-- Auxiliary: with tokenize mode equal to True, the mode step only
returns token-list content. -/
theorem modeStep_toks (c : BOWCorpus) (i : Nat) (t : Content)
    (htok : c.tokenize = PyVal.bool true)
    (hyp : c.tokenized.getD i Option.none = some true → ∃ ts, t = Content.toks ts) :
    ∀ r, c.modeStep i t = Except.ok r → ∃ ts, r.1 = Content.toks ts := by
  intro r hr
  unfold BOWCorpus.modeStep at hr
  rw [htok] at hr
  simp only [PyVal.pyEq, PyVal.toNumDen] at hr
  norm_num at hr
  exact tokenize_preprocess_toks c i t hyp r hr

/-- Claim C10: constructing the chunk engine switches the wrapped corpus's
tokenize mode to True, and under tokenize mode True every successful
process_text access serves token-list content, never a raw untokenized
string — given the state consistency the pipeline maintains, namely that a
tokenized-flag already True at the accessed index marks token-list
content. -/
theorem chunk_engine_tokenize_on_confirmed :
    ChunkCorpus.init.bow.tokenize = PyVal.bool true ∧
    ∀ (fs : FS) (c : BOWCorpus) (i : Nat) (l : String) (t : Content),
      c.tokenize = PyVal.bool true →
      (c.tokenized.getD i Option.none = some true → ∃ ts, t = Content.toks ts) →
      servesRawText (c.process_text fs i l t) = false := by
  constructor
  · rfl
  · intro fs c i l t htok hcons
    unfold BOWCorpus.process_text
    cases hrd : c.readStep fs t with
    | error e => simp [servesRawText]
    | ok p =>
        obtain ⟨t1, n⟩ := p
        have hc1 : (c.deduceStep i t1).tokenized.getD i Option.none = some true →
            ∃ ts, t1 = Content.toks ts :=
          deduceStep_consistency c i t1 (readStep_consistency fs c i t t1 n hrd hcons)
        cases hm : (c.deduceStep i t1).modeStep i t1 with
        | error e => simp [hm, servesRawText]
        | ok r =>
            obtain ⟨ts, hts⟩ := modeStep_toks (c.deduceStep i t1) i t1 htok hc1 r hm
            obtain ⟨t2, nt2⟩ := r
            simp only at hts
            simp [hm, servesRawText, hts]

/-- Claim C10 (witness): the theorem applied to the corpus wrapped by a
freshly constructed chunk engine over one raw string item. -/
theorem chunk_engine_tokenize_on_confirmed_witness :
    bowC10.tokenize = PyVal.bool true ∧
    servesRawText (bowC10.process_text [] 0 ("a") (Content.str ("hi there"))) = false := by
  refine ⟨rfl, ?_⟩
  exact chunk_engine_tokenize_on_confirmed.2 [] bowC10 0 ("a") (Content.str ("hi there"))
    rfl (fun h => absurd h (by decide))

end Texture
